import Mathlib

/-!
Verification development for the AdbWatcher repository.

The Python sources are shallowly embedded: Python strings are modelled as
`List Char`, `time.time()` values as integers (the source only compares,
adds and subtracts them), and the effectful parts
(subprocess management, HTTP dispatch, thread loops) as explicit state
passing with small oracles describing the outcomes of external operations.
Every definition is translated from the corresponding function in the
source tree (`backend/core/utils.py`, `backend/services/adbwatcher.py`,
`backend/services/adbhandler.py`); the doc comment of each definition names
the function it embeds.
-/

/-! ### Python string primitives -/

/-- Coerce a Lean string literal to the `List Char` model of Python strings. -/
def pstr (s : String) : List Char := s.data

/-- Python `s.find(sub)`: index of the first occurrence of `sub` in `s`,
as `Option` (Python returns `-1` for "not found"). -/
def findSub (s sub : List Char) : Option Nat :=
  if sub.isPrefixOf s then some 0
  else
    match s with
    | [] => none
    | _ :: t => (findSub t sub).map (· + 1)

/-- Python `s.rfind(sub)`: index of the last occurrence of `sub` in `s`. -/
def rfindSub (s sub : List Char) : Option Nat :=
  match s with
  | [] => if sub.isPrefixOf ([] : List Char) then some 0 else none
  | c :: t =>
    match rfindSub t sub with
    | some i => some (i + 1)
    | none => if sub.isPrefixOf (c :: t) then some 0 else none

/-- Python `sub in s` (substring containment). -/
def containsSub (s sub : List Char) : Bool := (findSub s sub).isSome

/-- Characters stripped by Python `str.strip('/ ')`. -/
def isSlashSpace (c : Char) : Bool := c == '/' || c == ' '

/-- Characters stripped by Python `str.strip()` (ASCII whitespace). -/
def isPyWhitespace (c : Char) : Bool :=
  c == ' ' || c == '\t' || c == '\n' || c == '\r' ||
  c == Char.ofNat 11 || c == Char.ofNat 12

/-- Python `str.strip` with an explicit character class: drop the class from
both ends of the string. -/
def stripChars (p : Char → Bool) (s : List Char) : List Char :=
  ((s.dropWhile p).reverse.dropWhile p).reverse

/-! ### backend/core/utils.py : path extraction -/

/-- The trailing-parameter markers removed by `extract_path_from_dat`
(`' typ='`, `' flg='`, `' act='`, `' cat='`, `' pkg='`), in source order. -/
def paramMarkers : List (List Char) :=
  [pstr " typ=", pstr " flg=", pstr " act=", pstr " cat=", pstr " pkg="]

/-- One step of the cleaning loop in `extract_path_from_dat`: truncate the
string at the first occurrence of the marker, if present. -/
def cutAtParam (s p : List Char) : List Char :=
  match findSub s p with
  | some i => s.take i
  | none => s

/-- The cleaning loop of `extract_path_from_dat`: remove every trailing
parameter marker and what follows it, in source order. -/
def cleanDat (s : List Char) : List Char := paramMarkers.foldl cutAtParam s

/-- A configured path-mapping rule (`{'source': ..., 'target': ...}`). -/
structure PathMapping where
  source : List Char
  target : List Char
deriving DecidableEq

/-- The rule-selection loop of `extract_path_from_dat`: first rule whose
source occurs in the cleaned string. -/
def findFirstMapping (ms : List PathMapping) (clean : List Char) : Option PathMapping :=
  ms.find? (fun m => containsSub clean m.source)

/-- The rule-application step of `extract_path_from_dat`: take the text after
the matched source prefix, strip slashes and spaces, concatenate onto the
target prefix. -/
def applyMapping (m : PathMapping) (clean : List Char) : List Char :=
  let rem := clean.drop ((findSub clean m.source).getD 0 + m.source.length)
  m.target ++ stripChars isSlashSpace rem

/-- Embedding of `extract_path_from_dat` (utils.py): clean the string, try
the mapping rules in order, then the content-URI fallbacks: `#` separator,
`externalstorage/` marker, `storage/emulated/0/` marker, final slash. -/
def extract_path_from_dat (dat : List Char) (mappings : List PathMapping) :
    Option (List Char) :=
  let clean := cleanDat dat
  match findFirstMapping mappings clean with
  | some m => some (applyMapping m clean)
  | none =>
    if ¬ (containsSub clean (pstr "content://") = true) then none
    else
      match findSub clean (pstr "#") with
      | some i => some (stripChars isSlashSpace (clean.drop (i + 1)))
      | none =>
        match findSub clean (pstr "externalstorage/") with
        | some i =>
            some (stripChars isSlashSpace
              (clean.drop (i + (pstr "externalstorage/").length)))
        | none =>
          match findSub clean (pstr "storage/emulated/0/") with
          | some i =>
              some (stripChars isSlashSpace
                (clean.drop (i + (pstr "storage/emulated/0/").length)))
          | none =>
            match rfindSub clean (pstr "/") with
            | some i => some (stripChars isSlashSpace (clean.drop (i + 1)))
            | none => none

/-- Embedding of `parse_video_path` (utils.py): locate `dat=`, truncate at
`' cmp='`, and hand the result to `extract_path_from_dat`. -/
def parse_video_path (line : List Char) (mappings : List PathMapping) :
    Option (List Char) :=
  match findSub line (pstr "dat=") with
  | none => none
  | some i =>
    let datPart := line.drop i
    let datPart :=
      match findSub datPart (pstr " cmp=") with
      | some j => datPart.take j
      | none => datPart
    extract_path_from_dat datPart mappings

/-! ### backend/core/utils.py : notification dispatch -/

/-- Python truthiness of an optional string (`None` and the empty string are
falsy). -/
def pyTruthyStr (o : Option (List Char)) : Bool :=
  match o with
  | some s => !s.isEmpty
  | none => false

/-- The parameter list of `send_http_notification(endpoint, file_path,
timeout=10)` in utils.py. -/
def send_http_notification_params : List (List Char) :=
  [pstr "endpoint", pstr "file_path", pstr "timeout"]

/-- The keyword arguments of the `send_http_notification(...)` call in
`_process_logcat_entry` (adbwatcher.py): `timeout=...` and `device_ip=...`. -/
def watcher_notification_call_kwargs : List (List Char) :=
  [pstr "timeout", pstr "device_ip"]

/-- The number of positional arguments of that call
(`self.config.notification_endpoint` and `video_path`). -/
def watcher_notification_call_positionals : Nat := 2

/-- Python call binding for the notification call site: the call succeeds in
binding its arguments iff the positional arguments fit and every keyword
argument names a declared parameter that was not already bound positionally;
otherwise Python raises `TypeError` before the callee body runs. -/
def notification_call_binds : Bool :=
  decide (watcher_notification_call_positionals ≤ send_http_notification_params.length) &&
  watcher_notification_call_kwargs.all (fun k =>
    send_http_notification_params.contains k &&
    !((send_http_notification_params.take watcher_notification_call_positionals).contains k))

/-- A record of one outbound HTTP POST attempt: the endpoint and the
`file_path` field of the JSON body `{"file_path": <path>}`. -/
structure HttpPost where
  endpoint : List Char
  file_path : List Char
deriving DecidableEq

/-- Outcome of the `requests.post` call: a status code, or an exception. -/
inductive HttpOutcome
  | response (code : Nat)
  | errored
deriving DecidableEq

/-- Embedding of the body of `send_http_notification` (utils.py): falsy
endpoint reports failure without a request; otherwise one POST attempt is
made, success iff the status code is in `[200, 300)`, exceptions reported as
failure. -/
def send_http_notification (endpoint : Option (List Char)) (file_path : List Char)
    (outcome : HttpOutcome) : Bool × List HttpPost :=
  if !(pyTruthyStr endpoint) then (false, [])
  else
    match outcome with
    | .response code => (decide (200 ≤ code ∧ code < 300), [⟨endpoint.getD [], file_path⟩])
    | .errored => (false, [⟨endpoint.getD [], file_path⟩])

/-! ### backend/services/adbwatcher.py : event pipeline state -/

/-- A filtered-log entry built by `_store_detected_event`; the timestamp is
the detection time, `original_event` is the stripped raw line. -/
structure FilteredEvent where
  timestamp : ℤ
  original_event : List Char
  mapped_path : List Char
  notification_status : Option (List Char)
deriving DecidableEq

/-- The duplicate-suppression state (`last_processed_event`,
`last_event_time`) of `ADBWatcher`. -/
structure DedupState where
  last_processed_event : Option (List Char)
  last_event_time : ℤ
deriving DecidableEq

/-- The configuration fields read by the pipeline. -/
structure WatcherConfig where
  path_mappings : List PathMapping
  notification_endpoint : Option (List Char)
  event_cooldown : ℤ

/-- Embedding of `_is_duplicate_event` (adbwatcher.py): falsy paths are never
duplicates and leave the state alone; a repeat of the last processed path
within the cooldown window is a duplicate and leaves the state alone;
otherwise the last path/time pair is updated. -/
def is_duplicate_event (st : DedupState) (cooldown : ℤ) (video_path : List Char)
    (now : ℤ) : Bool × DedupState :=
  if video_path.isEmpty then (false, st)
  else if st.last_processed_event = some video_path ∧
          now - st.last_event_time < cooldown then
    (true, st)
  else (false, ⟨some video_path, now⟩)

/-- Embedding of `_store_detected_event` (adbwatcher.py): if the filtered
buffer holds at least 100 entries, pop the oldest, then append. -/
def store_detected_event (logs : List FilteredEvent) (e : FilteredEvent) :
    List FilteredEvent :=
  (if logs.length ≥ 100 then logs.tail else logs) ++ [e]

/-- Embedding of the raw-buffer insertion in `_process_logcat_entry`:
`put_nowait` into the 1000-capacity queue; on `queue.Full`, drop the oldest
entry and retry, swallowing any error of the retry. -/
def log_buffer_put (buf : List (List Char)) (line : List Char) :
    List (List Char) :=
  if buf.length < 1000 then buf ++ [line]
  else if buf.tail.length < 1000 then buf.tail ++ [line]
  else buf.tail

/-- The post-dispatch update `self.filtered_logs[-1]["notification_status"] = ...`
guarded by `if self.filtered_logs:`. -/
def set_last_notification_status (logs : List FilteredEvent) (s : List Char) :
    List FilteredEvent :=
  match logs.getLast? with
  | none => logs
  | some e => logs.dropLast ++ [{ e with notification_status := some s }]

/-- The mutable pipeline state of `ADBWatcher` touched by
`_process_logcat_entry`. -/
structure PipelineState where
  log_buffer : List (List Char)
  filtered_logs : List FilteredEvent
  dedup : DedupState
deriving DecidableEq

/-- Result of processing one log line: the new state, the HTTP POSTs issued,
and whether an exception escaped `_process_logcat_entry`. -/
structure ProcessResult where
  state : PipelineState
  posts : List HttpPost
  raised : Bool
deriving DecidableEq

/-- Embedding of `_process_logcat_entry` (adbwatcher.py): append the line to
the raw buffer; on a candidate line (contains `START` and `cmp=`) with a
truthy extracted path, run the duplicate check, choose the initial
notification status (duplicate / no endpoint / pending), append the filtered
event, and for a fresh event with a configured endpoint dispatch the
notification.  The dispatch call passes keyword argument `device_ip`, which
`send_http_notification` does not declare, so the call binds iff
`notification_call_binds`; when binding fails Python raises `TypeError` at
the call site: no request is made and the pending status is never filled
in. -/
def process_logcat_entry (cfg : WatcherConfig) (st : PipelineState)
    (line : List Char) (now : ℤ) (http : HttpOutcome) : ProcessResult :=
  let st1 : PipelineState := { st with log_buffer := log_buffer_put st.log_buffer line }
  if containsSub line (pstr "START") && containsSub line (pstr "cmp=") then
    match parse_video_path line cfg.path_mappings with
    | none => ⟨st1, [], false⟩
    | some video_path =>
      if video_path.isEmpty then ⟨st1, [], false⟩
      else
        let r := is_duplicate_event st1.dedup cfg.event_cooldown video_path now
        let status : Option (List Char) :=
          if r.1 then some (pstr "Not sent (duplicate event)")
          else if !(pyTruthyStr cfg.notification_endpoint) then
            some (pstr "Not configured (no endpoint)")
          else none
        let ev : FilteredEvent :=
          ⟨now, stripChars isPyWhitespace line, video_path, status⟩
        let st2 : PipelineState :=
          { st1 with dedup := r.2,
                     filtered_logs := store_detected_event st1.filtered_logs ev }
        if !r.1 && pyTruthyStr cfg.notification_endpoint then
          if notification_call_binds then
            let sr := send_http_notification cfg.notification_endpoint video_path http
            let newStatus :=
              if sr.1 then pstr "Sent successfully" else pstr "Failed to send"
            ⟨{ st2 with filtered_logs :=
                  set_last_notification_status st2.filtered_logs newStatus },
              sr.2, false⟩
          else ⟨st2, [], true⟩
        else ⟨st2, [], false⟩
  else ⟨st1, [], false⟩

/-! ### backend/services/adbhandler.py : connection session -/

/-- Outcome of the `adb connect` attempt inside `ensure_connection`: stdout
reports a connection, stdout reports a refusal, the call times out, or it
raises some other exception.  The three failure arms of the source are
textually identical (disconnect, double backoff capped at 30, return
False). -/
inductive ConnectOutcome
  | accepted
  | rejected
  | timedOut
  | errored
deriving DecidableEq

/-- Oracle for the external effects consulted by `ensure_connection`. -/
structure ConnEnv where
  keepalive_alive : Bool
  quick_check_ok : Bool
  connect_outcome : ConnectOutcome
deriving DecidableEq

/-- The externally visible operations `ensure_connection` can perform. -/
inductive AdbAction
  | probe
  | terminate_keepalive
  | restart_adb
  | connect_call
  | spawn_keepalive
deriving DecidableEq

/-- The session state owned by `ADBHandler` and guarded by its connection
lock; `persistent_process` records whether a keep-alive subprocess handle is
held. -/
structure AdbSession where
  device_ip : Option (List Char)
  connected : Bool
  last_connection_attempt : ℤ
  connection_backoff : ℤ
  persistent_process : Bool
deriving DecidableEq

/-- Result of one `ensure_connection` call: the returned boolean, the session
afterwards, and the external actions performed. -/
structure ConnResult where
  ok : Bool
  session : AdbSession
  actions : List AdbAction
deriving DecidableEq

/-- Embedding of `ensure_connection` (adbhandler.py).  Paths in source order:
rate-limited early return of the cached flag; quick liveness probe when
already connected (success resets backoff and returns); teardown of the
keep-alive process; `adb` server restart when forced; invalid-address
failure; the connect attempt with its success and failure arms. -/
def ensure_connection (s : AdbSession) (force : Bool) (now : ℤ) (env : ConnEnv) :
    ConnResult :=
  if force = false ∧ now - s.last_connection_attempt < s.connection_backoff then
    ⟨s.connected, s, []⟩
  else
    let s1 : AdbSession := { s with last_connection_attempt := now }
    let quick_tried : Bool :=
      s1.connected && !force && s1.persistent_process && env.keepalive_alive
    if quick_tried && env.quick_check_ok then
      ⟨true, { s1 with connection_backoff := 1 }, [.probe]⟩
    else
      let acts0 : List AdbAction := if quick_tried then [.probe] else []
      let acts1 := acts0 ++ (if s1.persistent_process then [.terminate_keepalive] else [])
      let s2 : AdbSession := { s1 with persistent_process := false }
      let acts2 := acts1 ++ (if force then [.restart_adb] else [])
      if !(pyTruthyStr s2.device_ip) then
        ⟨false, { s2 with connected := false }, acts2⟩
      else
        match env.connect_outcome with
        | .accepted =>
            ⟨true, { s2 with connected := true, connection_backoff := 1,
                             persistent_process := true },
              acts2 ++ [.connect_call, .spawn_keepalive]⟩
        | _ =>
            ⟨false, { s2 with connected := false,
                              connection_backoff := min (s2.connection_backoff * 2) 30 },
              acts2 ++ [.connect_call]⟩

/-- N consecutive forced `ensure_connection` calls against the same
environment (used to express the backoff law for consecutive failures). -/
def consecutive_failures (s : AdbSession) (now : ℤ) (env : ConnEnv) :
    Nat → AdbSession
  | 0 => s
  | n + 1 => (ensure_connection (consecutive_failures s now env n) true now env).session

/-! ### stop_service and the device watchdog (adbwatcher.py / adbhandler.py) -/

/-- The logcat-process fields of `ADBHandler`. -/
structure HandlerProcState where
  logcat_process : Bool
  is_monitoring : Bool
deriving DecidableEq

/-- Embedding of `stop_logcat_process` (adbhandler.py): terminate with a
bounded wait; on failure escalate to kill, whose failure is also swallowed;
the `finally` clause clears the handle and the monitoring flag on each of the
three exit paths. -/
def stop_logcat_process (h : HandlerProcState) (terminate_ok kill_ok : Bool) :
    HandlerProcState :=
  if h.logcat_process then
    if terminate_ok then { logcat_process := false, is_monitoring := false }
    else if kill_ok then { logcat_process := false, is_monitoring := false }
    else { logcat_process := false, is_monitoring := false }
  else h

/-- The `ADBWatcher` fields touched by `stop_service`;
`enable_watcher` is the cached configuration flag. -/
structure WatcherState where
  enable_watcher : Bool
  is_running : Bool
  monitoring_failed : Bool
  process : Bool
  device_watchdog_running : Bool
  device_watchdog_thread : Bool
  handler : HandlerProcState
deriving DecidableEq

/-- Embedding of `stop_device_watchdog` (adbwatcher.py): clear the running
flag and drop the thread handle. -/
def stop_device_watchdog (w : WatcherState) : WatcherState :=
  { w with device_watchdog_running := false, device_watchdog_thread := false }

/-- Embedding of `stop_service` (adbwatcher.py): remember whether monitoring
was running, clear `is_running`, clear `monitoring_failed` only if it was
running, stop the logcat process, join the reader thread, drop the process
handle, and stop the watchdog only when the watcher is disabled in the
configuration.  Returns True on every path. -/
def stop_service (w : WatcherState) (terminate_ok kill_ok : Bool) :
    Bool × WatcherState :=
  let was_running := w.is_running
  let w1 := { w with is_running := false }
  let w2 := if was_running then { w1 with monitoring_failed := false } else w1
  let w3 := { w2 with handler := stop_logcat_process w2.handler terminate_ok kill_ok }
  let w4 := { w3 with process := false }
  let w5 := if !w4.enable_watcher then stop_device_watchdog w4 else w4
  (true, w5)

/-- Result of one watchdog cycle: how many times `restart_service` was
invoked, the `monitoring_failed` flag as left by the cycle itself, and
whether the loop keeps running. -/
structure WatchdogCycleResult where
  restart_calls : Nat
  monitoring_failed : Bool
  keep_running : Bool
deriving DecidableEq

/-- Embedding of one iteration of `_run_device_watchdog` together with
`_handle_connection_state_change` (adbwatcher.py): a disabled watcher stops
the loop; a state change invokes the handler, which on a
disconnected-to-connected transition with the watcher enabled and monitoring
failed or not running clears the failure flag and calls `restart_service`
once.  The internal effects of `restart_service` itself are outside this
cycle model. -/
def watchdog_cycle (enable_watcher monitoring_failed is_running : Bool)
    (last_connected device_connected : Bool) : WatchdogCycleResult :=
  if !enable_watcher then ⟨0, monitoring_failed, false⟩
  else if device_connected != last_connected then
    if device_connected && !last_connected &&
       (enable_watcher && (monitoring_failed || !is_running)) then
      ⟨1, false, true⟩
    else ⟨0, monitoring_failed, true⟩
  else ⟨0, monitoring_failed, true⟩

/-! ### Helper lemmas -/

/-- Nonempty lists are not `isEmpty`. -/
lemma isEmpty_false_of_ne_nil {P : List Char} (hP : P ≠ []) : P.isEmpty = false := by
  cases P with
  | nil => exact absurd rfl hP
  | cons a l => rfl

/-- A first detection that is not a duplicate stores the path and its time. -/
lemma dedup_fresh_state (st0 : DedupState) (P : List Char) (cooldown t0 : ℤ)
    (hP : P ≠ []) (h : (is_duplicate_event st0 cooldown P t0).1 = false) :
    (is_duplicate_event st0 cooldown P t0).2 = ⟨some P, t0⟩ := by
  have hE : P.isEmpty = false := isEmpty_false_of_ne_nil hP
  by_cases hc : st0.last_processed_event = some P ∧ t0 - st0.last_event_time < cooldown
  · rw [is_duplicate_event, if_neg (by simp [hE]), if_pos hc] at h
    simp at h
  · rw [is_duplicate_event, if_neg (by simp [hE]), if_neg hc]

/-- The pipeline issues no HTTP POST on any input: the only dispatching
branch is guarded by `notification_call_binds`, which is false because the
call site passes the undeclared keyword `device_ip`. -/
lemma process_posts_nil (cfg : WatcherConfig) (st : PipelineState)
    (line : List Char) (now : ℤ) (http : HttpOutcome) :
    (process_logcat_entry cfg st line now http).posts = [] := by
  have hb : notification_call_binds = false := by decide
  unfold process_logcat_entry
  rw [hb]
  repeat' split
  all_goals simp_all
  all_goals (split <;> rfl)

/-- A duplicate detection skips the notification branch, so the dispatch
call site is never reached and nothing is raised. -/
lemma process_duplicate_no_raise (cfg : WatcherConfig) (st : PipelineState)
    (line : List Char) (now : ℤ) (http : HttpOutcome) (p : List Char)
    (hp : parse_video_path line cfg.path_mappings = some p)
    (hdup : (is_duplicate_event st.dedup cfg.event_cooldown p now).1 = true) :
    (process_logcat_entry cfg st line now http).raised = false := by
  have hb : notification_call_binds = false := by decide
  unfold process_logcat_entry
  rw [hb]
  repeat' split
  all_goals simp_all

/-! ### Claim theorems -/

/-- C3: a path P processed as new at time t0 and detected again at t0 + δ is
marked duplicate with the stored last-path/last-time pair unchanged when
δ < cooldown, and treated as new with the pair updated to (P, t0 + δ) when
δ ≥ cooldown; a detection marked duplicate dispatches no notification. -/
theorem c3_dedup_cooldown (st0 : DedupState) (P : List Char) (t0 δ cooldown : ℤ)
    (hP : P ≠ []) (hfirst : (is_duplicate_event st0 cooldown P t0).1 = false) :
    (δ < cooldown →
      is_duplicate_event (is_duplicate_event st0 cooldown P t0).2 cooldown P (t0 + δ)
        = (true, (is_duplicate_event st0 cooldown P t0).2)) ∧
    (cooldown ≤ δ →
      is_duplicate_event (is_duplicate_event st0 cooldown P t0).2 cooldown P (t0 + δ)
        = (false, ⟨some P, t0 + δ⟩)) ∧
    (∀ (cfg : WatcherConfig) (st : PipelineState) (line : List Char)
        (t1 : ℤ) (http : HttpOutcome) (q : List Char),
      parse_video_path line cfg.path_mappings = some q →
      (is_duplicate_event st.dedup cfg.event_cooldown q t1).1 = true →
      (process_logcat_entry cfg st line t1 http).posts = [] ∧
      (process_logcat_entry cfg st line t1 http).raised = false) := by
  have hE : P.isEmpty = false := isEmpty_false_of_ne_nil hP
  have hst : (is_duplicate_event st0 cooldown P t0).2 = ⟨some P, t0⟩ :=
    dedup_fresh_state st0 P cooldown t0 hP hfirst
  refine ⟨?_, ?_, ?_⟩
  · intro hδ
    rw [hst, is_duplicate_event, if_neg (by simp [hE]),
      if_pos ⟨rfl, by rw [add_sub_cancel_left]; exact hδ⟩]
  · intro hδ
    rw [hst, is_duplicate_event, if_neg (by simp [hE]),
      if_neg (fun hcon => absurd hcon.2 (by rw [add_sub_cancel_left]; exact not_lt.mpr hδ))]
  · intro cfg st line t1 http q hq hdup
    exact ⟨process_posts_nil cfg st line t1 http,
      process_duplicate_no_raise cfg st line t1 http q hq hdup⟩

/-- Witness for C3 at a concrete input. -/
theorem c3_dedup_cooldown_witness :
    is_duplicate_event (is_duplicate_event ⟨none, 0⟩ 3 (pstr "m.mkv") 10).2 3
        (pstr "m.mkv") (10 + 1)
      = (true, (is_duplicate_event ⟨none, 0⟩ 3 (pstr "m.mkv") 10).2) :=
  (c3_dedup_cooldown ⟨none, 0⟩ (pstr "m.mkv") 10 1 3 (by decide) (by decide)).1
    (by norm_num)

/-- C7: a watchdog cycle observing a disconnected-to-connected transition
with the watcher enabled and the monitoring-failed flag set clears the flag
and calls `restart_service` exactly once; a cycle with no transition, or a
connected-to-disconnected transition, calls no restart. -/
theorem c7_watchdog_auto_recovery :
    ∀ e m r l d : Bool,
      (e = true → m = true → l = false → d = true →
        watchdog_cycle e m r l d = ⟨1, false, true⟩) ∧
      (l = d → (watchdog_cycle e m r l d).restart_calls = 0) ∧
      (l = true → d = false → (watchdog_cycle e m r l d).restart_calls = 0) := by
  decide

/-- Witness for C7 at concrete flag values. -/
theorem c7_watchdog_auto_recovery_witness :
    watchdog_cycle true true false false true = ⟨1, false, true⟩ ∧
    (watchdog_cycle true true true true true).restart_calls = 0 ∧
    (watchdog_cycle true false true true false).restart_calls = 0 :=
  ⟨(c7_watchdog_auto_recovery true true false false true).1 rfl rfl rfl rfl,
   (c7_watchdog_auto_recovery true true true true true).2.1 rfl,
   (c7_watchdog_auto_recovery true false true true false).2.2 rfl rfl⟩

/-- C8: `stop_service` always returns True, is idempotent on the watcher
state, stops the device watchdog exactly when the watcher is disabled in the
configuration, and clears the logcat subprocess handle (and the process
field) on every exit path, including termination failure escalated to
kill. -/
theorem c8_stop_service :
    ∀ (w : WatcherState) (t k t2 k2 : Bool),
      (stop_service w t k).1 = true ∧
      (stop_service (stop_service w t k).2 t2 k2).2 = (stop_service w t k).2 ∧
      (w.enable_watcher = false →
        (stop_service w t k).2.device_watchdog_running = false ∧
        (stop_service w t k).2.device_watchdog_thread = false) ∧
      (w.enable_watcher = true →
        (stop_service w t k).2.device_watchdog_running = w.device_watchdog_running ∧
        (stop_service w t k).2.device_watchdog_thread = w.device_watchdog_thread) ∧
      (stop_service w t k).2.handler.logcat_process = false ∧
      (stop_service w t k).2.process = false := by
  intro w t k t2 k2
  obtain ⟨e, ir, mf, p, dwr, dwt, ⟨lp, im⟩⟩ := w
  cases e <;> cases ir <;> cases lp <;>
    simp [stop_service, stop_logcat_process, stop_device_watchdog]

/-- Witness for C8 at a concrete state, with the kill-escalation path. -/
theorem c8_stop_service_witness :
    (stop_service ⟨false, true, true, true, true, true, ⟨true, true⟩⟩ false false).1 = true ∧
    (stop_service (stop_service ⟨false, true, true, true, true, true, ⟨true, true⟩⟩ false false).2 true true).2
      = (stop_service ⟨false, true, true, true, true, true, ⟨true, true⟩⟩ false false).2 ∧
    ((stop_service ⟨false, true, true, true, true, true, ⟨true, true⟩⟩ false false).2.device_watchdog_running = false ∧
     (stop_service ⟨false, true, true, true, true, true, ⟨true, true⟩⟩ false false).2.device_watchdog_thread = false) ∧
    (stop_service ⟨false, true, true, true, true, true, ⟨true, true⟩⟩ false false).2.handler.logcat_process = false ∧
    (stop_service ⟨false, true, true, true, true, true, ⟨true, true⟩⟩ false false).2.process = false := by
  have h := c8_stop_service ⟨false, true, true, true, true, true, ⟨true, true⟩⟩ false false true true
  exact ⟨h.1, h.2.1, h.2.2.1 rfl, h.2.2.2.2.1, h.2.2.2.2.2⟩

/-- C10: a `stop_service` call made while monitoring is not running leaves
the monitoring-failed flag unchanged; one made while monitoring is running
clears it. -/
theorem c10_stop_preserves_monitoring_failed :
    ∀ (w : WatcherState) (t k : Bool),
      (w.is_running = false →
        (stop_service w t k).2.monitoring_failed = w.monitoring_failed) ∧
      (w.is_running = true →
        (stop_service w t k).2.monitoring_failed = false) := by
  intro w t k
  obtain ⟨e, ir, mf, p, dwr, dwt, ⟨lp, im⟩⟩ := w
  cases e <;> cases ir <;> cases lp <;>
    simp [stop_service, stop_logcat_process, stop_device_watchdog]

/-- Witness for C10 at concrete states. -/
theorem c10_stop_preserves_monitoring_failed_witness :
    (stop_service ⟨true, false, true, true, true, true, ⟨true, true⟩⟩ true true).2.monitoring_failed = true ∧
    (stop_service ⟨true, true, true, true, true, true, ⟨true, true⟩⟩ true true).2.monitoring_failed = false :=
  ⟨(c10_stop_preserves_monitoring_failed ⟨true, false, true, true, true, true, ⟨true, true⟩⟩ true true).1 rfl,
   (c10_stop_preserves_monitoring_failed ⟨true, true, true, true, true, true, ⟨true, true⟩⟩ true true).2 rfl⟩

/-- C9: an `ensure_connection` call with force off made while the elapsed
time since the last attempt is below the current backoff returns the cached
connected flag, performs no external actions, and leaves the whole session
unchanged. -/
theorem c9_rate_limited_noop (s : AdbSession) (now : ℤ) (env : ConnEnv)
    (h : now - s.last_connection_attempt < s.connection_backoff) :
    ensure_connection s false now env = ⟨s.connected, s, []⟩ := by
  rw [ensure_connection, if_pos ⟨rfl, h⟩]

/-- Witness for C9 at a concrete session. -/
theorem c9_rate_limited_noop_witness :
    ensure_connection ⟨some (pstr "192.168.1.50"), true, 0, 1, true⟩ false 0
      ⟨true, true, .accepted⟩
      = ⟨true, ⟨some (pstr "192.168.1.50"), true, 0, 1, true⟩, []⟩ :=
  c9_rate_limited_noop ⟨some (pstr "192.168.1.50"), true, 0, 1, true⟩ 0
    ⟨true, true, .accepted⟩ (by norm_num)

/-- The option returned by `findSub` is `some` exactly when the needle is an
infix of the haystack. -/
lemma findSub_isSome_iff (sub s : List Char) :
    (findSub s sub).isSome = true ↔ sub <:+: s := by
  induction s with
  | nil =>
    rw [findSub]
    by_cases hp : sub.isPrefixOf ([] : List Char) = true
    · simp only [hp, if_pos]
      simp
      simpa using hp
    · simp only [hp]
      simp
      intro hc
      exact hp (by simp [hc])
  | cons c t ih =>
    rw [findSub]
    by_cases hp : sub.isPrefixOf (c :: t) = true
    · simp only [hp, if_pos]
      simp
      exact List.infix_cons_iff.mpr (Or.inl (by simpa using hp))
    · simp only [hp]
      simp
      rw [List.infix_cons_iff]
      constructor
      · intro h
        exact Or.inr (ih.mp (by simpa using h))
      · intro h
        rcases h with h | h
        · exact absurd (by simpa using h) (by simpa using hp)
        · simpa using ih.mpr h

/-- Substring containment agrees with the infix relation. -/
lemma containsSub_iff_isInfix (s sub : List Char) :
    containsSub s sub = true ↔ sub <:+: s := by
  unfold containsSub
  exact findSub_isSome_iff sub s

/-- Truncating at a parameter marker yields a prefix. -/
lemma cutAtParam_isPrefix (s p : List Char) : cutAtParam s p <+: s := by
  unfold cutAtParam
  cases h : findSub s p with
  | none => exact List.prefix_refl s
  | some i => exact List.take_prefix i s

/-- The cleaning fold yields a prefix of its input. -/
lemma foldl_cutAtParam_isPrefix (ps : List (List Char)) (s : List Char) :
    ps.foldl cutAtParam s <+: s := by
  induction ps generalizing s with
  | nil => exact List.prefix_refl s
  | cons p ps ih =>
    rw [List.foldl_cons]
    exact (ih (cutAtParam s p)).trans (cutAtParam_isPrefix s p)

/-- The cleaned dat string is a prefix of the raw one. -/
lemma cleanDat_isPrefix (s : List Char) : cleanDat s <+: s :=
  foldl_cutAtParam_isPrefix paramMarkers s

/-- Substring containment is monotone along prefixes. -/
lemma containsSub_mono {s t sub : List Char} (h : s <+: t)
    (hc : containsSub s sub = true) : containsSub t sub = true := by
  rw [containsSub_iff_isInfix] at hc ⊢
  exact hc.trans h.isInfix

/-- C4: when a mapping rule matches the cleaned input, the rule wins even in
the presence of a `#` separator; the `externalstorage/` and
`storage/emulated/0/` fallbacks produce the relative path on the two spec
inputs; and an input without the content-URI marker that matches no rule
extracts no path. -/
theorem c4_path_extraction :
    (∀ (dat : List Char) (rules : List PathMapping) (m : PathMapping),
      findFirstMapping rules (cleanDat dat) = some m →
      containsSub (cleanDat dat) (pstr "#") = true →
      extract_path_from_dat dat rules = some (applyMapping m (cleanDat dat))) ∧
    extract_path_from_dat
        (pstr "content://com.provider.media/externalstorage/movies/a.mp4") []
      = some (pstr "movies/a.mp4") ∧
    extract_path_from_dat
        (pstr "content://media/external_primary/storage/emulated/0/movies/b.mp4") []
      = some (pstr "movies/b.mp4") ∧
    (∀ (dat : List Char) (rules : List PathMapping),
      containsSub dat (pstr "content://") = false →
      (∀ m ∈ rules, containsSub (cleanDat dat) m.source = false) →
      extract_path_from_dat dat rules = none) := by
  refine ⟨?_, by decide, by decide, ?_⟩
  · intro dat rules m hm _
    simp only [extract_path_from_dat]
    rw [hm]
  · intro dat rules hc hr
    have hfm : findFirstMapping rules (cleanDat dat) = none := by
      unfold findFirstMapping
      rw [List.find?_eq_none]
      intro m hmem
      simp [hr m hmem]
    have hnc : containsSub (cleanDat dat) (pstr "content://") = false := by
      by_cases h : containsSub (cleanDat dat) (pstr "content://") = true
      · exact absurd (containsSub_mono (cleanDat_isPrefix dat) h) (by simp [hc])
      · simpa using h
    simp only [extract_path_from_dat]
    rw [hfm, if_pos (by simp [hnc])]

/-- Witness for C4: a rule match beats a `#` separator at a concrete input,
and a markerless input with no rules yields no path. -/
theorem c4_path_extraction_witness :
    extract_path_from_dat (pstr "content://x#/mnt/usb/movies/c.mp4")
        [⟨pstr "/mnt/usb/", pstr "films/"⟩]
      = some (applyMapping ⟨pstr "/mnt/usb/", pstr "films/"⟩
          (cleanDat (pstr "content://x#/mnt/usb/movies/c.mp4"))) ∧
    extract_path_from_dat (pstr "no marker here") [] = none := by
  constructor
  · exact c4_path_extraction.1 _ _ _ (by decide) (by decide)
  · exact c4_path_extraction.2.2.2 _ [] (by decide) (by simp)

/-- A bounded append fills up to capacity like a plain append. -/
lemma bounded_foldl_fill {α : Type} (put : List α → α → List α) (cap : Nat)
    (hlt : ∀ (b : List α) (x : α), b.length < cap → put b x = b ++ [x]) :
    ∀ (xs acc : List α), acc.length + xs.length ≤ cap →
      List.foldl put acc xs = acc ++ xs := by
  intro xs
  induction xs with
  | nil => intro acc _; simp
  | cons x t ih =>
    intro acc hlen
    simp only [List.length_cons] at hlen
    rw [List.foldl_cons, hlt acc x (by omega)]
    rw [ih (acc ++ [x]) (by simp; omega)]
    simp

/-- Reassembling a list of length at least two around its last element. -/
lemma tail_dropLast_concat {α : Type} (xs : List α) (h2 : 1 < xs.length)
    (hne : xs ≠ []) :
    xs.dropLast.tail ++ [xs.getLast hne] = xs.tail := by
  cases xs with
  | nil => exact absurd rfl hne
  | cons a t =>
    have ht : t ≠ [] := by
      intro h
      rw [h] at h2
      simp at h2
    rw [List.dropLast_cons_of_ne_nil ht, List.getLast_cons ht]
    simp only [List.tail_cons]
    exact List.dropLast_concat_getLast ht

/-- Folding capacity-plus-one items into an empty bounded buffer evicts
exactly the oldest item. -/
lemma bounded_foldl_evict {α : Type} (put : List α → α → List α) (cap : Nat)
    (hcap : 0 < cap)
    (hlt : ∀ (b : List α) (x : α), b.length < cap → put b x = b ++ [x])
    (heq : ∀ (b : List α) (x : α), b.length = cap → put b x = b.tail ++ [x])
    (xs : List α) (hxs : xs.length = cap + 1) :
    List.foldl put [] xs = xs.tail := by
  have hne : xs ≠ [] := by
    intro h
    rw [h] at hxs
    simp at hxs
  have hlen : xs.dropLast.length = cap := by
    rw [List.length_dropLast, hxs]
    rfl
  conv_lhs => rw [← List.dropLast_concat_getLast hne]
  rw [List.foldl_append,
    bounded_foldl_fill put cap hlt xs.dropLast [] (by simp [hlen])]
  simp only [List.nil_append, List.foldl_cons, List.foldl_nil]
  rw [heq xs.dropLast _ hlen]
  exact tail_dropLast_concat xs (by omega) hne

/-- Below capacity, the raw-buffer insertion appends. -/
lemma log_buffer_put_lt (b : List (List Char)) (x : List Char)
    (h : b.length < 1000) : log_buffer_put b x = b ++ [x] := by
  rw [log_buffer_put, if_pos h]

/-- At capacity, the raw-buffer insertion drops the oldest and appends. -/
lemma log_buffer_put_eq (b : List (List Char)) (x : List Char)
    (h : b.length = 1000) : log_buffer_put b x = b.tail ++ [x] := by
  rw [log_buffer_put, if_neg (by omega), if_pos (by simp [h])]

/-- Below capacity, the filtered-buffer insertion appends. -/
lemma store_detected_event_lt (b : List FilteredEvent) (x : FilteredEvent)
    (h : b.length < 100) : store_detected_event b x = b ++ [x] := by
  rw [store_detected_event, if_neg (by omega)]

/-- At capacity, the filtered-buffer insertion drops the oldest and
appends. -/
lemma store_detected_event_eq (b : List FilteredEvent) (x : FilteredEvent)
    (h : b.length = 100) : store_detected_event b x = b.tail ++ [x] := by
  rw [store_detected_event, if_pos (by omega)]

/-- C6: appending capacity-plus-one items to either bounded buffer (raw
capacity 1000, filtered capacity 100) leaves exactly capacity items with the
oldest evicted and order preserved, and no insertion ever grows a buffer
past its capacity. -/
theorem c6_buffer_eviction :
    (∀ xs : List (List Char), xs.length = 1001 →
      List.foldl log_buffer_put [] xs = xs.tail) ∧
    (∀ (buf : List (List Char)) (line : List Char),
      buf.length ≤ 1000 → (log_buffer_put buf line).length ≤ 1000) ∧
    (∀ es : List FilteredEvent, es.length = 101 →
      List.foldl store_detected_event [] es = es.tail) ∧
    (∀ (logs : List FilteredEvent) (e : FilteredEvent),
      logs.length ≤ 100 → (store_detected_event logs e).length ≤ 100) := by
  refine ⟨?_, ?_, ?_, ?_⟩
  · intro xs hxs
    exact bounded_foldl_evict log_buffer_put 1000 (by omega)
      log_buffer_put_lt log_buffer_put_eq xs hxs
  · intro buf line h
    rw [log_buffer_put]
    split
    · simp
      omega
    · split
      · simp
        omega
      · simp
        omega
  · intro es hes
    exact bounded_foldl_evict store_detected_event 100 (by omega)
      store_detected_event_lt store_detected_event_eq es hes
  · intro logs e h
    rw [store_detected_event]
    split
    · simp
      omega
    · simp
      omega

/-- Witness for C6: eviction and bounds at concrete buffers. -/
theorem c6_buffer_eviction_witness :
    List.foldl log_buffer_put [] (List.replicate 1001 (pstr "x"))
      = (List.replicate 1001 (pstr "x")).tail ∧
    (log_buffer_put [] (pstr "y")).length ≤ 1000 ∧
    List.foldl store_detected_event []
        (List.replicate 101 (⟨0, [], [], none⟩ : FilteredEvent))
      = (List.replicate 101 (⟨0, [], [], none⟩ : FilteredEvent)).tail ∧
    (store_detected_event [] ⟨0, [], [], none⟩).length ≤ 100 :=
  ⟨c6_buffer_eviction.1 _ (List.length_replicate 1001 _),
   c6_buffer_eviction.2.1 [] _ (by simp),
   c6_buffer_eviction.2.2.1 _ (List.length_replicate 101 _),
   c6_buffer_eviction.2.2.2 [] _ (by simp)⟩

set_option maxHeartbeats 1000000 in
lemma ensure_connection_fail (s : AdbSession) (force : Bool) (now : ℤ) (env : ConnEnv)
    (hrate : ¬ (force = false ∧ now - s.last_connection_attempt < s.connection_backoff))
    (hquick : (s.connected && !force && s.persistent_process &&
      env.keepalive_alive && env.quick_check_ok) = false)
    (hip : pyTruthyStr s.device_ip = true)
    (hout : env.connect_outcome ≠ .accepted) :
    ensure_connection s force now env = ⟨false,
      ⟨s.device_ip, false, now, min (s.connection_backoff * 2) 30, false⟩,
      (if (s.connected && !force && s.persistent_process && env.keepalive_alive) = true
        then [.probe] else []) ++
      (if s.persistent_process = true then [.terminate_keepalive] else []) ++
      (if force = true then [.restart_adb] else []) ++ [.connect_call]⟩ := by
  obtain ⟨ip, c, la, bo, pp⟩ := s
  obtain ⟨ka, qc, co⟩ := env
  cases co
  case accepted => exact absurd rfl hout
  all_goals
    cases c <;> cases pp <;> cases force <;> cases ka <;> cases qc <;>
      simp_all [ensure_connection]

set_option maxHeartbeats 1000000 in
lemma ensure_connection_invalid_ip (s : AdbSession) (force : Bool) (now : ℤ) (env : ConnEnv)
    (hrate : ¬ (force = false ∧ now - s.last_connection_attempt < s.connection_backoff))
    (hquick : (s.connected && !force && s.persistent_process &&
      env.keepalive_alive && env.quick_check_ok) = false)
    (hip : pyTruthyStr s.device_ip = false) :
    ensure_connection s force now env = ⟨false,
      ⟨s.device_ip, false, now, s.connection_backoff, false⟩,
      (if (s.connected && !force && s.persistent_process && env.keepalive_alive) = true
        then [.probe] else []) ++
      (if s.persistent_process = true then [.terminate_keepalive] else []) ++
      (if force = true then [.restart_adb] else [])⟩ := by
  obtain ⟨ip, c, la, bo, pp⟩ := s
  obtain ⟨ka, qc, co⟩ := env
  cases c <;> cases pp <;> cases force <;> cases ka <;> cases qc <;>
    simp_all [ensure_connection]

set_option maxHeartbeats 1000000 in
lemma ensure_connection_quick_success (s : AdbSession) (force : Bool) (now : ℤ) (env : ConnEnv)
    (hrate : ¬ (force = false ∧ now - s.last_connection_attempt < s.connection_backoff))
    (hquick : (s.connected && !force && s.persistent_process &&
      env.keepalive_alive && env.quick_check_ok) = true) :
    ensure_connection s force now env
      = ⟨true, ⟨s.device_ip, s.connected, now, 1, s.persistent_process⟩, [.probe]⟩ := by
  obtain ⟨ip, c, la, bo, pp⟩ := s
  obtain ⟨ka, qc, co⟩ := env
  cases c <;> cases pp <;> cases force <;> cases ka <;> cases qc <;>
    simp_all [ensure_connection]

set_option maxHeartbeats 1000000 in
lemma ensure_connection_accepted (s : AdbSession) (force : Bool) (now : ℤ) (env : ConnEnv)
    (hrate : ¬ (force = false ∧ now - s.last_connection_attempt < s.connection_backoff))
    (hquick : (s.connected && !force && s.persistent_process &&
      env.keepalive_alive && env.quick_check_ok) = false)
    (hip : pyTruthyStr s.device_ip = true)
    (hout : env.connect_outcome = .accepted) :
    ensure_connection s force now env = ⟨true,
      ⟨s.device_ip, true, now, 1, true⟩,
      (if (s.connected && !force && s.persistent_process && env.keepalive_alive) = true
        then [.probe] else []) ++
      (if s.persistent_process = true then [.terminate_keepalive] else []) ++
      (if force = true then [.restart_adb] else []) ++
      [.connect_call, .spawn_keepalive]⟩ := by
  obtain ⟨ip, c, la, bo, pp⟩ := s
  obtain ⟨ka, qc, co⟩ := env
  subst hout
  cases c <;> cases pp <;> cases force <;> cases ka <;> cases qc <;>
    simp_all [ensure_connection]

lemma min_double_cap (x : ℤ) : min (min x 30 * 2) 30 = min (x * 2) 30 := by
  rcases le_total x 30 with h | h
  · rw [min_eq_left h]
  · rw [min_eq_right h, min_eq_right (by linarith), min_eq_right (by linarith)]

lemma consecutive_failures_spec (s : AdbSession) (now : ℤ) (env : ConnEnv)
    (hip : pyTruthyStr s.device_ip = true)
    (hout : env.connect_outcome ≠ .accepted)
    (hcap : s.connection_backoff ≤ 30) :
    ∀ N : Nat,
      (consecutive_failures s now env N).device_ip = s.device_ip ∧
      (consecutive_failures s now env N).connection_backoff
        = min (s.connection_backoff * 2 ^ N) 30 ∧
      (consecutive_failures s now env N).connection_backoff ≤ 30 := by
  intro N
  induction N with
  | zero =>
    refine ⟨rfl, ?_, hcap⟩
    show s.connection_backoff = min (s.connection_backoff * 2 ^ 0) 30
    rw [pow_zero, mul_one, min_eq_left hcap]
  | succ n ih =>
    obtain ⟨hipn, hbn, hln⟩ := ih
    have hstep := ensure_connection_fail (consecutive_failures s now env n) true now env
      (by simp) (by simp) (by rw [hipn]; exact hip) hout
    have : consecutive_failures s now env (n + 1)
        = (ensure_connection (consecutive_failures s now env n) true now env).session := rfl
    rw [this, hstep]
    refine ⟨hipn, ?_, min_le_right _ _⟩
    show min ((consecutive_failures s now env n).connection_backoff * 2) 30
      = min (s.connection_backoff * 2 ^ (n + 1)) 30
    rw [hbn, min_double_cap, pow_succ, mul_assoc]

/-- C2 (amended): the connect-rejected, timeout, and exception failure paths
of ensure_connection mark the session disconnected, double the backoff capped
at 30 and return false; the invalid-address failure path marks disconnected
and returns false but leaves the backoff unchanged; N consecutive failures on
the doubling paths leave backoff = min(base·2^N, cap); and either success
path (quick probe or accepted connect) resets the backoff to the base
value 1. -/
theorem c2_backoff_amended :
    (∀ (s : AdbSession) (force : Bool) (now : ℤ) (env : ConnEnv),
      ¬ (force = false ∧ now - s.last_connection_attempt < s.connection_backoff) →
      (s.connected && !force && s.persistent_process &&
        env.keepalive_alive && env.quick_check_ok) = false →
      pyTruthyStr s.device_ip = true →
      env.connect_outcome ≠ .accepted →
      (ensure_connection s force now env).ok = false ∧
      (ensure_connection s force now env).session.connected = false ∧
      (ensure_connection s force now env).session.connection_backoff
        = min (s.connection_backoff * 2) 30) ∧
    (∀ (s : AdbSession) (force : Bool) (now : ℤ) (env : ConnEnv),
      ¬ (force = false ∧ now - s.last_connection_attempt < s.connection_backoff) →
      (s.connected && !force && s.persistent_process &&
        env.keepalive_alive && env.quick_check_ok) = false →
      pyTruthyStr s.device_ip = false →
      (ensure_connection s force now env).ok = false ∧
      (ensure_connection s force now env).session.connected = false ∧
      (ensure_connection s force now env).session.connection_backoff
        = s.connection_backoff) ∧
    (∀ (s : AdbSession) (now : ℤ) (env : ConnEnv) (N : Nat),
      pyTruthyStr s.device_ip = true →
      env.connect_outcome ≠ .accepted →
      s.connection_backoff ≤ 30 →
      (consecutive_failures s now env N).connection_backoff
        = min (s.connection_backoff * 2 ^ N) 30) ∧
    (∀ (s : AdbSession) (force : Bool) (now : ℤ) (env : ConnEnv),
      ¬ (force = false ∧ now - s.last_connection_attempt < s.connection_backoff) →
      (s.connected && !force && s.persistent_process &&
        env.keepalive_alive && env.quick_check_ok) = true →
      (ensure_connection s force now env).ok = true ∧
      (ensure_connection s force now env).session.connection_backoff = 1) ∧
    (∀ (s : AdbSession) (force : Bool) (now : ℤ) (env : ConnEnv),
      ¬ (force = false ∧ now - s.last_connection_attempt < s.connection_backoff) →
      (s.connected && !force && s.persistent_process &&
        env.keepalive_alive && env.quick_check_ok) = false →
      pyTruthyStr s.device_ip = true →
      env.connect_outcome = .accepted →
      (ensure_connection s force now env).ok = true ∧
      (ensure_connection s force now env).session.connection_backoff = 1) := by
  refine ⟨?_, ?_, ?_, ?_, ?_⟩
  · intro s force now env hrate hquick hip hout
    rw [ensure_connection_fail s force now env hrate hquick hip hout]
    exact ⟨rfl, rfl, rfl⟩
  · intro s force now env hrate hquick hip
    rw [ensure_connection_invalid_ip s force now env hrate hquick hip]
    exact ⟨rfl, rfl, rfl⟩
  · intro s now env N hip hout hcap
    exact (consecutive_failures_spec s now env hip hout hcap N).2.1
  · intro s force now env hrate hquick
    rw [ensure_connection_quick_success s force now env hrate hquick]
    exact ⟨rfl, rfl⟩
  · intro s force now env hrate hquick hip hout
    rw [ensure_connection_accepted s force now env hrate hquick hip hout]
    exact ⟨rfl, rfl⟩

/-- C2 counterexample: on the invalid-address failure path (device_ip is
None) the call returns false and marks disconnected but leaves the backoff at
1 instead of doubling it to min(1·2, 30) = 2, refuting the claim that every
failure path doubles the backoff. -/
theorem c2_invalid_address_counterexample :
    (ensure_connection ⟨none, false, 0, 1, false⟩ true 5 ⟨false, false, .rejected⟩).ok
      = false ∧
    (ensure_connection ⟨none, false, 0, 1, false⟩ true 5
      ⟨false, false, .rejected⟩).session.connected = false ∧
    (ensure_connection ⟨none, false, 0, 1, false⟩ true 5
      ⟨false, false, .rejected⟩).session.connection_backoff = 1 ∧
    min ((1 : ℤ) * 2) 30 = 2 ∧ (1 : ℤ) ≠ 2 := by
  refine ⟨rfl, rfl, rfl, ?_, by norm_num⟩
  rw [min_eq_left (by norm_num)]
  norm_num

/-- Witness for C2 at concrete sessions: a timeout failure doubles the
backoff, three consecutive failures give min(1·2^3, 30), and both success
paths reset the backoff to 1. -/
theorem c2_backoff_amended_witness :
    (ensure_connection ⟨some (pstr "10.0.0.9"), false, 0, 1, true⟩ true 50
      ⟨true, true, .timedOut⟩).ok = false ∧
    (ensure_connection ⟨some (pstr "10.0.0.9"), false, 0, 1, true⟩ true 50
      ⟨true, true, .timedOut⟩).session.connected = false ∧
    (ensure_connection ⟨some (pstr "10.0.0.9"), false, 0, 1, true⟩ true 50
      ⟨true, true, .timedOut⟩).session.connection_backoff = min ((1 : ℤ) * 2) 30 ∧
    (consecutive_failures ⟨some (pstr "10.0.0.9"), false, 0, 1, true⟩ 50
      ⟨true, true, .timedOut⟩ 3).connection_backoff = min ((1 : ℤ) * 2 ^ 3) 30 ∧
    (ensure_connection ⟨some (pstr "10.0.0.9"), true, 0, 1, true⟩ false 40
      ⟨true, true, .accepted⟩).session.connection_backoff = 1 ∧
    (ensure_connection ⟨some (pstr "10.0.0.9"), false, 0, 1, false⟩ true 9
      ⟨false, false, .accepted⟩).session.connection_backoff = 1 ∧
    (ensure_connection ⟨none, false, 0, 1, false⟩ true 7
      ⟨false, false, .errored⟩).session.connection_backoff = 1 := by
  have h1 := c2_backoff_amended.1 ⟨some (pstr "10.0.0.9"), false, 0, 1, true⟩ true 50
    ⟨true, true, .timedOut⟩ (by simp) (by decide) (by decide) (by decide)
  have h3 := c2_backoff_amended.2.2.1 ⟨some (pstr "10.0.0.9"), false, 0, 1, true⟩ 50
    ⟨true, true, .timedOut⟩ 3 (by decide) (by decide) (by norm_num)
  have h4 := c2_backoff_amended.2.2.2.1 ⟨some (pstr "10.0.0.9"), true, 0, 1, true⟩ false 40
    ⟨true, true, .accepted⟩ (fun h => absurd h.2 (by norm_num)) (by decide)
  have h5 := c2_backoff_amended.2.2.2.2 ⟨some (pstr "10.0.0.9"), false, 0, 1, false⟩ true 9
    ⟨false, false, .accepted⟩ (by simp) (by decide) (by decide) (by decide)
  have h2 := c2_backoff_amended.2.1 ⟨none, false, 0, 1, false⟩ true 7
    ⟨false, false, .errored⟩ (by simp) (by decide) (by decide)
  exact ⟨h1.1, h1.2.1, h1.2.2, h3, h4.2, h5.2, h2.2.2⟩


/-- C1 (code bug): for the end-to-end line the pipeline maps the path to
clip.mp4 and appends exactly one filtered event, but issues no HTTP POST:
the dispatch call passes the undeclared keyword argument device_ip, so the
call raises TypeError instead of posting, and the event keeps a pending
status. -/
theorem c1_end_to_end_typeerror :
    parse_video_path (pstr "START u0 dat=content://media/storage/emulated/0/clip.mp4 typ=video cmp=com.player/.Main") []
      = some (pstr "clip.mp4") ∧
    (process_logcat_entry ⟨[], some (pstr "http://nas:7507/play"), 3⟩ ⟨[], [], ⟨none, 0⟩⟩
        (pstr "START u0 dat=content://media/storage/emulated/0/clip.mp4 typ=video cmp=com.player/.Main")
        100 (.response 200)).state.filtered_logs.length = 1 ∧
    (process_logcat_entry ⟨[], some (pstr "http://nas:7507/play"), 3⟩ ⟨[], [], ⟨none, 0⟩⟩
        (pstr "START u0 dat=content://media/storage/emulated/0/clip.mp4 typ=video cmp=com.player/.Main")
        100 (.response 200)).state.filtered_logs.map FilteredEvent.mapped_path
      = [pstr "clip.mp4"] ∧
    (process_logcat_entry ⟨[], some (pstr "http://nas:7507/play"), 3⟩ ⟨[], [], ⟨none, 0⟩⟩
        (pstr "START u0 dat=content://media/storage/emulated/0/clip.mp4 typ=video cmp=com.player/.Main")
        100 (.response 200)).posts = [] ∧
    (process_logcat_entry ⟨[], some (pstr "http://nas:7507/play"), 3⟩ ⟨[], [], ⟨none, 0⟩⟩
        (pstr "START u0 dat=content://media/storage/emulated/0/clip.mp4 typ=video cmp=com.player/.Main")
        100 (.response 200)).raised = true ∧
    notification_call_binds = false := by decide

/-- C5 (code bug): every detection with a truthy extracted path appends
exactly one filtered event; a duplicate is stored with the duplicate status
and a missing endpoint with the not-configured status, but in the
fresh-event-with-endpoint case the status is never set after dispatch: the
dispatch call raises TypeError (undeclared keyword device_ip) and the entry
keeps status None. -/
theorem c5_filtered_event_statuses :
    (process_logcat_entry ⟨[], some (pstr "http://n/e"), 3⟩
        ⟨[], [], ⟨some (pstr "m.mkv"), 10⟩⟩
        (pstr "START dat=content://x#m.mkv cmp=a/b") 11
        (.response 200)).state.filtered_logs.map FilteredEvent.notification_status
      = [some (pstr "Not sent (duplicate event)")] ∧
    (process_logcat_entry ⟨[], some (pstr "http://n/e"), 3⟩
        ⟨[], [], ⟨some (pstr "m.mkv"), 10⟩⟩
        (pstr "START dat=content://x#m.mkv cmp=a/b") 11
        (.response 200)).state.filtered_logs.length = 1 ∧
    (process_logcat_entry ⟨[], some (pstr "http://n/e"), 3⟩
        ⟨[], [], ⟨some (pstr "m.mkv"), 10⟩⟩
        (pstr "START dat=content://x#m.mkv cmp=a/b") 11
        (.response 200)).raised = false ∧
    (process_logcat_entry ⟨[], none, 3⟩ ⟨[], [], ⟨none, 0⟩⟩
        (pstr "START dat=content://x#m.mkv cmp=a/b") 11
        (.response 200)).state.filtered_logs.map FilteredEvent.notification_status
      = [some (pstr "Not configured (no endpoint)")] ∧
    (process_logcat_entry ⟨[], none, 3⟩ ⟨[], [], ⟨none, 0⟩⟩
        (pstr "START dat=content://x#m.mkv cmp=a/b") 11
        (.response 200)).raised = false ∧
    (process_logcat_entry ⟨[], some (pstr "http://n/e"), 3⟩ ⟨[], [], ⟨none, 0⟩⟩
        (pstr "START dat=content://x#m.mkv cmp=a/b") 11
        (.response 200)).state.filtered_logs.map FilteredEvent.notification_status
      = [none] ∧
    (process_logcat_entry ⟨[], some (pstr "http://n/e"), 3⟩ ⟨[], [], ⟨none, 0⟩⟩
        (pstr "START dat=content://x#m.mkv cmp=a/b") 11
        (.response 200)).state.filtered_logs.length = 1 ∧
    (process_logcat_entry ⟨[], some (pstr "http://n/e"), 3⟩ ⟨[], [], ⟨none, 0⟩⟩
        (pstr "START dat=content://x#m.mkv cmp=a/b") 11
        (.response 200)).posts = [] ∧
    (process_logcat_entry ⟨[], some (pstr "http://n/e"), 3⟩ ⟨[], [], ⟨none, 0⟩⟩
        (pstr "START dat=content://x#m.mkv cmp=a/b") 11
        (.response 200)).raised = true := by decide
